import Mathlib

/-!
Verification development for the byzer-llm agent conversation core.

The definitions below are a shallow embedding of the Python sources
`byzerllm/apps/agent/conversable_agent.py`,
`byzerllm/apps/agent/extensions/python_codesandbox_agent.py`,
`byzerllm/apps/agent/extensions/retrieval_agent.py` and
`byzerllm/apps/agent/__init__.py`.  Python dictionaries with a fixed key
set become structures with `Option` fields (an `Option` wrapping records
presence of the key), per-counterpart maps become total functions out of
the key type, machine time is a natural number of seconds, and the calls
that cross an external boundary (the language model, the ray actor
runtime, the Python interpreter inside the sandbox) are parameters of the
embedded functions.
-/

set_option maxHeartbeats 1000000

namespace Byzer

/-- A participant reference: a local `Agent` object or a remote actor
handle.  The `id` field models Python object identity, `isRemote`
distinguishes `Agent` instances from `ClientActorHandle`, and `name` is
the agent name returned by `get_agent_name`. -/
structure AgentRef where
  id : Nat
  isRemote : Bool
  name : String
deriving DecidableEq, Repr

/-- A key of the `_messages` dictionary.  Python dictionaries are
heterogeneous: `_append_message` stores under the `conversation_id`
object itself, while `PythonSandboxAgent.generate_reply` indexes the same
dictionary with the string `get_agent_name(sender)`. -/
inductive ConvId where
  | ref (r : AgentRef)
  | str (s : String)
deriving DecidableEq, Repr

/-- `get_agent_name` from `apps/agent/__init__.py`: returns `agent.name`
for a local agent and `ray.get(agent.name.remote())` for a handle; both
resolve to the name carried by the reference. -/
def get_agent_name (r : AgentRef) : String := r.name

/-- An incoming message dictionary.  Each `Option` layer at the outside
records whether the key is present; for `content` the inner `Option`
records a present key whose value is Python `None`. -/
structure PyMessage where
  content : Option (Option String)
  function_call : Option String
  name : Option String
  context : Option String
  role : Option String
deriving DecidableEq, Repr

/-- Argument of `send`/`receive`/`_append_message`: a string or a
message dictionary. -/
inductive MessageInput where
  | ofString (s : String)
  | ofDict (m : PyMessage)
deriving DecidableEq, Repr

/-- A stored history entry.  After `_append_message` the `content` key is
always present (possibly with value Python `None`, modelled as `none`)
and the role is always set. -/
structure OaiMessage where
  content : Option String
  function_call : Option String
  name : Option String
  context : Option String
  role : String
deriving DecidableEq, Repr

/-- `ConversableAgent._message_to_dict`. -/
def message_to_dict : MessageInput → PyMessage
  | .ofString s => { content := some (some s), function_call := none,
                     name := none, context := none, role := none }
  | .ofDict m => m

/-- The message construction part of `ConversableAgent._append_message`
(lines 227-239): copy the recognized keys, reject a message with neither
`content` nor `function_call`, materialize `content` as `None` when only
`function_call` is present, keep role `function`, and force role
`assistant` whenever a `function_call` is present. -/
def mk_oai_message (msg : MessageInput) (role : String) : Option OaiMessage :=
  let m := message_to_dict msg
  match m.content, m.function_call with
  | none, none => none
  | contentField, fcField =>
    let content : Option String :=
      match contentField with
      | some v => v
      | none => none
    let role1 : String := if m.role = some ("function") then ("function") else role
    let role2 : String := if fcField.isSome then ("assistant") else role1
    some { content := content, function_call := fcField,
           name := m.name, context := m.context, role := role2 }

/-- A reply function together with its Python identity (`id`) and
whether `asyncio.coroutines.iscoroutinefunction` is true of it
(`isAsync`).  The function receives the messages, the sender and the
config of its registry entry and returns the `(final, reply)` pair. -/
structure RFunc where
  id : Nat
  isAsync : Bool
  run : List OaiMessage → Option ConvId → Option String → Bool × Option MessageInput

/-- A trigger as described by the docstring of
`ConversableAgent.register_reply`: an agent class, a name string, an
agent instance, a predicate, `None`, or a list of triggers. -/
inductive Trigger where
  | agentClass
  | actorHandleClass
  | strClass
  | nameIs (s : String)
  | instanceIs (c : ConvId)
  | pred (f : Option ConvId → Bool)
  | noneTrigger
  | anyOf (ts : List Trigger)

/-- Modelled from the spec: the trigger matching rule of section 4.3 and
of the `register_reply` docstring.  No `_match_trigger` function exists
anywhere in the sources; `generate_reply` iterates the reply list without
ever reading the `trigger` field, so the matching rule is reconstructed
from the specification text. -/
def match_trigger : Trigger → Option ConvId → Bool
  | .noneTrigger, s => s.isNone
  | .agentClass, some (.ref r) => !r.isRemote
  | .agentClass, _ => false
  | .actorHandleClass, some (.ref r) => r.isRemote
  | .actorHandleClass, _ => false
  | .strClass, some (.str _) => true
  | .strClass, _ => false
  | .nameIs s, some (.ref r) => r.name = s
  | .nameIs s, some (.str t) => t = s
  | .nameIs _, none => false
  | .instanceIs c, some c2 => c = c2
  | .instanceIs _, none => false
  | .pred f, s => f s
  | .anyOf ts, s => ts.attach.any (fun t => match_trigger t.1 s)
termination_by t _ => sizeOf t
decreasing_by
  simp_wf
  have := List.sizeOf_lt_of_mem t.2
  omega

/-- An entry of `_reply_func_list`. -/
structure Entry where
  trigger : Trigger
  replyFunc : RFunc
  config : Option String

/-- Python `list.insert`: insert before the given index, clamping to the
end of the list when the index is past it. -/
def py_insert (n : Nat) (a : α) : List α → List α
  | [] => [a]
  | x :: xs =>
    match n with
    | 0 => a :: x :: xs
    | Nat.succ m => x :: py_insert m a xs

/-- `ConversableAgent.register_reply`: insert the new entry at
`position` (default 0, the front of the list). -/
def register_reply (entries : List Entry) (trigger : Trigger) (f : RFunc)
    (position : Nat) (config : Option String) : List Entry :=
  py_insert position { trigger := trigger, replyFunc := f, config := config } entries

/-- Run one reply entry the way `generate_reply` does:
`reply_func(self, messages=messages, sender=sender, config=entry.config)`. -/
def run_entry (e : Entry) (msgs : List OaiMessage) (sender : Option ConvId) :
    Bool × Option MessageInput :=
  e.replyFunc.run msgs sender e.config

/-- Whether `generate_reply` skips the entry: the reply function is in
the `exclude` list, or it is a coroutine function.  The trigger is never
consulted (`generate_reply`, lines 365-373 of `conversable_agent.py`). -/
def skip_entry (exclude : Option (List Nat)) (e : Entry) : Bool :=
  (exclude.getD []).contains e.replyFunc.id || e.replyFunc.isAsync

/-- The dispatch loop of `ConversableAgent.generate_reply`, instrumented
with the zero-based positions of the entries whose reply function was
actually evaluated.  Returns `none` when the loop fell through. -/
def dispatch_aux (msgs : List OaiMessage) (sender : Option ConvId)
    (exclude : Option (List Nat)) : List Entry → Nat → Option (Option MessageInput) × List Nat
  | [], _ => (none, [])
  | e :: rest, i =>
    if skip_entry exclude e then dispatch_aux msgs sender exclude rest (i + 1)
    else
      let fr := run_entry e msgs sender
      if fr.1 then (some fr.2, [i])
      else
        let rt := dispatch_aux msgs sender exclude rest (i + 1)
        (rt.1, i :: rt.2)

/-- Dispatch with evaluation trace: the reply (the first conclusive
result, or the default auto reply) paired with the list of evaluated
entry positions. -/
def dispatch_trace (entries : List Entry) (msgs : List OaiMessage)
    (sender : Option ConvId) (exclude : Option (List Nat))
    (defaultAutoReply : Option MessageInput) : Option MessageInput × List Nat :=
  let rt := dispatch_aux msgs sender exclude entries 0
  (rt.1.getD defaultAutoReply, rt.2)

/-- The reply produced by the dispatch loop of `generate_reply`. -/
def dispatch (entries : List Entry) (msgs : List OaiMessage)
    (sender : Option ConvId) (exclude : Option (List Nat))
    (defaultAutoReply : Option MessageInput) : Option MessageInput :=
  (dispatch_trace entries msgs sender exclude defaultAutoReply).1

/-- The mutable state of one `ConversableAgent`: the `_messages`
dictionary, the `reply_at_receive` and `_consecutive_auto_reply_counter`
default dictionaries, the registered reply list and the default auto
reply.  The default dictionaries are total functions whose value on an
untouched key is the Python default (`[]`, `False`, `0`). -/
structure AgentState where
  messages : ConvId → List OaiMessage
  replyAtReceive : ConvId → Bool
  autoReplyCounter : ConvId → Nat
  entries : List Entry
  defaultAutoReply : Option MessageInput

/-- `ConversableAgent._append_message`: build the history entry and
append it under the `conversation_id` key, or report failure (`False`)
leaving the state untouched. -/
def append_message (st : AgentState) (msg : MessageInput) (role : String)
    (cid : ConvId) : Option AgentState :=
  (mk_oai_message msg role).map fun om =>
    { st with messages := fun c => if c = cid then st.messages c ++ [om] else st.messages c }

/-- Total version of `append_message` used to spell out concrete
scenarios; a failing append leaves the state unchanged. -/
def append_message_d (st : AgentState) (msg : MessageInput) (role : String)
    (cid : ConvId) : AgentState :=
  (append_message st msg role cid).getD st

/-- The history lookup on line 119 (and 149) of
`python_codesandbox_agent.py`: `self._messages[get_agent_name(sender)]`,
a read of the messages dictionary keyed by the resolved name string. -/
def sandbox_history_lookup (st : AgentState) (sender : AgentRef) : List OaiMessage :=
  st.messages (ConvId.str (get_agent_name sender))

/-- `ConversableAgent.generate_reply`: `none` models the
`AssertionError` raised when both arguments are absent; otherwise the
messages default to the stored history of the sender and the reply list
is dispatched. -/
def generate_reply (st : AgentState) (messages : Option (List OaiMessage))
    (sender : Option ConvId) (exclude : Option (List Nat)) :
    Option (Option MessageInput) :=
  match messages, sender with
  | none, none => none
  | some ms, s => some (dispatch st.entries ms s exclude st.defaultAutoReply)
  | none, some s => some (dispatch st.entries (st.messages s) (some s) exclude st.defaultAutoReply)

/-- One of the two agents of a conversation. -/
inductive Side where
  | A
  | B
deriving DecidableEq, Repr

/-- The other participant. -/
def Side.other : Side → Side
  | .A => .B
  | .B => .A

/-- A two-agent world: the states of both participants and the
references through which each addresses the other. -/
structure TwoAgentWorld where
  stA : AgentState
  stB : AgentState
  refA : AgentRef
  refB : AgentRef

/-- The state of the given side. -/
def stOf (w : TwoAgentWorld) : Side → AgentState
  | .A => w.stA
  | .B => w.stB

/-- The reference of the given side. -/
def refOf (w : TwoAgentWorld) : Side → AgentRef
  | .A => w.refA
  | .B => w.refB

/-- Replace the state of the given side. -/
def setSt (w : TwoAgentWorld) : Side → AgentState → TwoAgentWorld
  | .A, st => { w with stA := st }
  | .B, st => { w with stB := st }

/-- Result of running a bounded send/receive recursion: the call chain
returned, a `ValueError` was raised, or the recursion fuel ran out with
the conversation still going. -/
inductive Outcome where
  | done
  | error (msg : String)
  | fuelOut
deriving DecidableEq, Repr

/-- The `ValueError` text raised by `ConversableAgent.send` for an
invalid message. -/
def send_invalid_error : String :=
  "Message cannot be converted into a valid ChatCompletion message. Either content or function_call must be provided."

/-- The `ValueError` text raised by
`ConversableAgent._process_received_message` for an invalid message. -/
def receive_invalid_error : String :=
  "Received message cannot be converted into a valid ChatCompletion message. Either content or function_call must be provided."

/-- Which of the two mutually recursive conversation methods runs
next. -/
inductive Call where
  | send
  | recv
deriving DecidableEq, Repr

/-- The mutually recursive pair `ConversableAgent.send` /
`ConversableAgent.receive` as one fuel-indexed step function (the two
methods are merged so that the recursion is structural on the fuel).

`send self other msg rr`: append the message under the recipient key
with role `assistant` (raising `ValueError` on an invalid message), then
invoke the recipient's `receive` — directly for a local agent, through
the actor runtime for a remote one; both are the same synchronous call
in this model.

`recv self other msg rr`: append the message under the sender key with
role `user` (raising `ValueError` on an invalid message), stop when
`request_reply` is `False` or is unset while `reply_at_receive[sender]`
is false, otherwise run `generate_reply` over the full stored history
and, when the reply `is not None`, send it back.

The source recursion is unbounded; a `fuelOut` result means the
conversation was still recursing after `fuel` nested calls. -/
def stepM : Nat → Call → TwoAgentWorld → Side → Side → MessageInput → Option Bool →
    Outcome × TwoAgentWorld
  | 0, _, w, _, _, _, _ => (.fuelOut, w)
  | Nat.succ n, .send, w, self, recipient, msg, requestReply =>
    let key := ConvId.ref (refOf w recipient)
    match append_message (stOf w self) msg ("assistant") key with
    | none => (.error send_invalid_error, w)
    | some st2 => stepM n .recv (setSt w self st2) recipient self msg requestReply
  | Nat.succ n, .recv, w, self, sender, msg, requestReply =>
    let skey := ConvId.ref (refOf w sender)
    match append_message (stOf w self) msg ("user") skey with
    | none => (.error receive_invalid_error, w)
    | some st2 =>
      let w2 := setSt w self st2
      if requestReply = some false ∨ (requestReply = none ∧ st2.replyAtReceive skey = false) then
        (.done, w2)
      else
        match generate_reply st2 (some (st2.messages skey)) (some skey) none with
        | none => (.error ("AssertionError"), w2)
        | some reply =>
          match reply with
          | none => (.done, w2)
          | some replyMsg => stepM n .send w2 self sender replyMsg none

/-- `ConversableAgent.send` with the given recursion fuel. -/
def sendM (fuel : Nat) (w : TwoAgentWorld) (self recipient : Side)
    (msg : MessageInput) (requestReply : Option Bool) : Outcome × TwoAgentWorld :=
  stepM fuel .send w self recipient msg requestReply

/-- `ConversableAgent.receive` with the given recursion fuel. -/
def recvM (fuel : Nat) (w : TwoAgentWorld) (self sender : Side)
    (msg : MessageInput) (requestReply : Option Bool) : Outcome × TwoAgentWorld :=
  stepM fuel .recv w self sender msg requestReply

/-- `ConversableAgent._prepare_chat`: reset both auto-reply counters,
set `reply_at_receive` to true on both sides for each other, and
optionally clear both history entries. -/
def prepare_chat (w : TwoAgentWorld) (self recipient : Side) (clearHistory : Bool) :
    TwoAgentWorld :=
  let rkey := ConvId.ref (refOf w recipient)
  let skey := ConvId.ref (refOf w self)
  let selfSt := stOf w self
  let selfSt :=
    { selfSt with
      autoReplyCounter := fun c => if c = rkey then 0 else selfSt.autoReplyCounter c
      replyAtReceive := fun c => if c = rkey then true else selfSt.replyAtReceive c
      messages := fun c => if clearHistory ∧ c = rkey then [] else selfSt.messages c }
  let w2 := setSt w self selfSt
  let recSt := stOf w2 recipient
  let recSt :=
    { recSt with
      autoReplyCounter := fun c => if c = skey then 0 else recSt.autoReplyCounter c
      replyAtReceive := fun c => if c = skey then true else recSt.replyAtReceive c
      messages := fun c => if clearHistory ∧ c = skey then [] else recSt.messages c }
  setSt w2 recipient recSt

/-- `ConversableAgent.initiate_chat` with `context = {message := msg}`:
prepare both sides and send the initial message (the base
`generate_init_message` returns `context["message"]`). -/
def initiate_chat (fuel : Nat) (w : TwoAgentWorld) (self recipient : Side)
    (clearHistory : Bool) (msg : MessageInput) : Outcome × TwoAgentWorld :=
  sendM fuel (prepare_chat w self recipient clearHistory) self recipient msg none

/-! ## Retrieval agent (`retrieval_agent.py`) -/

/-- Whether the needle occurs as a contiguous run of the haystack:
the Python `in` operator on strings, over character lists. -/
def list_has_infix : List Char → List Char → Bool
  | [], needle => needle.isEmpty
  | c :: rest, needle => needle.isPrefixOf (c :: rest) || list_has_infix rest needle

/-- Substring test used to model the Python `in` operator on strings. -/
def str_contains (hay needle : String) : Bool :=
  list_has_infix hay.toList needle.toList

/-- Python `str.upper`, over the character list. -/
def str_upper (s : String) : String :=
  String.mk (s.toList.map Char.toUpper)

/-- The context-update test of `generate_retrieval_based_reply`
(lines 192 and 202): the marker is looked for in the upper-cased last 20
characters or first 20 characters of the response (the Python slices
`v[-20:]` and `v[:20]`). -/
def marker_in (v : String) : Bool :=
  str_contains (str_upper (v.takeRight 20)) ("UPDATE CONTEXT") ||
  str_contains (str_upper (v.take 20)) ("UPDATE CONTEXT")

/-- The grounded prompt built by `generate_retrieval_based_reply` from
the question and one retrieved raw chunk. -/
def mk_prompt (question context : String) : String :=
  "User's question is: " ++ question ++ "\n\nContext is: " ++ context ++ "\n"

/-- The `while update_context_case` loop of
`generate_retrieval_based_reply`, with the language-model backend as an
oracle from prompt to response text.  State: the current document index
`c`, the number of model attempts made so far `att`, the last response
`v` and the last marker test `upd`.  Returns the final attempt count,
response and marker flag. -/
def retrieval_loop (llm : String → String) (question : String)
    (contents : List String) (retry : Nat) (c att : Nat) (v : String)
    (upd : Bool) : Nat × String × Bool :=
  if upd then
    let c2 := c + 1
    if h : c2 ≥ retry ∨ c2 ≥ contents.length then (att, v, upd)
    else
      let v2 := llm (mk_prompt question (contents.get ⟨c2, by omega⟩))
      retrieval_loop llm question contents retry c2 (att + 1) v2 (marker_in v2)
  else (att, v, upd)
termination_by retry - c
decreasing_by
  simp_wf
  omega

/-- `RetrievalAgent.generate_retrieval_based_reply` with the search
result (the `raw_chunk` fields of the retrieved documents) and the model
given as parameters.  `none` models the `IndexError` on an empty search
result; otherwise the result is the attempt count, the `final` flag
(always `True`) and the returned reply. -/
def generate_retrieval_based_reply (llm : String → String) (question : String)
    (contents : List String) (retry : Nat) : Option (Nat × Bool × String) :=
  match contents with
  | [] => none
  | c0 :: _ =>
    let v0 := llm (mk_prompt question c0)
    let r := retrieval_loop llm question contents retry 0 1 v0 (marker_in v0)
    some (r.1, true, if r.2.2 then ("FAIL TO ANSWER") else r.2.1)

/-! ## Sandbox pool (`python_codesandbox_agent.py`) -/

/-- A sandbox actor: its actor identity and the `session_variables`
dictionary (`{}` on creation). -/
structure Sandbox where
  id : Nat
  sessionVariables : List (String × String)
deriving DecidableEq, Repr

/-- The pool owned by `PythonSandboxAgent`: the `sandboxes` and
`lasted_updated` dictionaries (association lists keyed by counterpart
name) plus a counter supplying fresh actor identities. -/
structure SandboxPool where
  sandboxes : List (String × Sandbox)
  lastedUpdated : List (String × Nat)
  nextId : Nat
deriving DecidableEq, Repr

/-- First value stored under a key, as Python dictionary lookup. -/
def lookupA (l : List (String × α)) (k : String) : Option α :=
  match l with
  | [] => none
  | p :: rest => if p.1 = k then some p.2 else lookupA rest k

/-- Python dictionary assignment `d[k] = v` on an association list. -/
def updateA (l : List (String × α)) (k : String) (v : α) : List (String × α) :=
  if l.any (fun p => p.1 = k) then
    l.map (fun p => if p.1 = k then (k, v) else p)
  else l ++ [(k, v)]

/-- `PythonSandboxAgent.check_sandbox_timeout`: collect every name whose
last-used time is more than `timeout` seconds before `now` and delete it
from both dictionaries. -/
def check_sandbox_timeout (pool : SandboxPool) (now : Nat) (timeout : Nat) :
    SandboxPool :=
  let removeNames := (pool.lastedUpdated.filter (fun p => now - p.2 > timeout)).map Prod.fst
  { pool with
    sandboxes := pool.sandboxes.filter (fun p => !removeNames.contains p.1)
    lastedUpdated := pool.lastedUpdated.filter (fun p => !removeNames.contains p.1) }

/-- `PythonSandboxAgent.get_or_create_sandbox` at time `now`: refresh
`lasted_updated[name]`, run the timeout sweep (default timeout
60*60 seconds), return the pooled sandbox when the name is present, and
otherwise create a fresh actor with empty session variables.  The file
materialization arguments are handled entirely by the actor constructor
at the external boundary and do not affect the pool. -/
def get_or_create_sandbox (pool : SandboxPool) (now : Nat) (name : String) :
    Sandbox × SandboxPool :=
  let pool1 := { pool with lastedUpdated := updateA pool.lastedUpdated name now }
  let pool2 := check_sandbox_timeout pool1 now (60 * 60)
  match lookupA pool2.sandboxes name with
  | some sb => (sb, pool2)
  | none =>
    let sb : Sandbox := { id := pool2.nextId, sessionVariables := [] }
    ({ id := pool2.nextId, sessionVariables := [] },
     { pool2 with sandboxes := pool2.sandboxes ++ [(name, sb)], nextId := pool2.nextId + 1 })

/-! ## Sandbox execution (`CodeSandbox.exec_capture_output`) -/

/-- Where a process-wide output stream currently points: the real stream
or the capture buffer set up by `exec_capture_output`. -/
inductive StreamTarget where
  | standard
  | buffer
deriving DecidableEq, Repr

/-- The process-wide `sys.stdout` and `sys.stderr` bindings. -/
structure Streams where
  stdout : StreamTarget
  stderr : StreamTarget
deriving DecidableEq, Repr

/-- Outcome of the interpreter-boundary call `exec(code, variables)`:
normal completion with the text written to the redirected streams and
the resulting variable bindings, or an exception with its traceback
text. -/
inductive PyExecOutcome where
  | ok (captured : String) (vars : List (String × String))
  | exn (tb : String)

/-- The `target_names` argument: the annotated `Dict[str, Any]` shape
(only its keys matter) or the plain list actually passed by
`generate_execute_code_reply`. -/
inductive TargetNames where
  | pydict (names : List String)
  | pylist
deriving DecidableEq, Repr

/-- Model of `traceback.format_exc()` for the given exception text. -/
def format_exc (tb : String) : String :=
  "Traceback (most recent call last):\n" ++ tb

/-- The exception text of calling `.items()` on a list. -/
def list_items_attribute_error : String :=
  "AttributeError: list object has no attribute items"

/-- `CodeSandbox.exec_capture_output`: redirect both streams to the
capture buffer, run the code, and on success collect the requested
variables, restore the streams and return `(0, captured, response)`.
Any exception — one raised by the executed code, or the
`AttributeError` from calling `.items()` on a list `target_names` — is
caught and returned as `(1, formatted traceback, empty mapping)`; the
stream restoration on lines 67-68 is only reached on the success path.
The result pairs the returned triple with the final stream bindings. -/
def exec_capture_output (outcome : PyExecOutcome) (target : TargetNames)
    (streams : Streams) : (Nat × String × List (String × String)) × Streams :=
  let redirected : Streams := { stdout := .buffer, stderr := .buffer }
  match outcome with
  | .exn tb => ((1, format_exc tb, []), redirected)
  | .ok captured vars =>
    match target with
    | .pylist => ((1, format_exc list_items_attribute_error, []), redirected)
    | .pydict names =>
      let response := (names.filter (fun n => vars.any (fun p => p.1 = n))).map
        (fun n => (n, ((vars.find? (fun p => p.1 = n)).map Prod.snd).getD ("")))
      ((0, captured, response), { stdout := .standard, stderr := .standard })

/-! ## Code-execution reply (`PythonSandboxAgent.generate_execute_code_reply`) -/

/-- Split a character list on every triple-backtick fence; the segments
between consecutive fences are returned in order. -/
def split_fences : List Char → List Char → List (List Char)
  | [], acc => [acc.reverse]
  | '`' :: '`' :: '`' :: rest, acc => acc.reverse :: split_fences rest []
  | c :: rest, acc => split_fences rest (c :: acc)

/-- Split a character list at its first newline: the first line and the
remainder. -/
def split_first_line : List Char → List Char × List Char
  | [] => ([], [])
  | '\n' :: rest => ([], rest)
  | c :: rest =>
    let r := split_first_line rest
    (c :: r.1, r.2)

/-- Modelled from the spec: the code-block extraction contract of
section 6 (`code_utils.extract_code` lives in `utils/client`, outside
the given sources).  A syntactic scan for fenced blocks: the text
between each pair of triple-backtick fences becomes one `(language,
code)` pair whose language is the first line of the segment, and a text
with no fence yields the single block `(unknown, text)`. -/
def extract_code (text : String) : List (String × String) :=
  let parts := split_fences text.toList []
  let blocks := ((parts.enum.filter (fun p => p.1 % 2 = 1)).map Prod.snd).map
    (fun b =>
      let fl := split_first_line b
      let lang := String.mk fl.1
      (if lang = "" then ("unknown" : String) else lang, String.mk fl.2))
  if blocks = [] then [(("unknown" : String), text)] else blocks

/-- The structured response returned by the code-execution reply
handler.  Modelled from the spec (the `ChatResponse` dataclass is
defined in a part of `apps/agent/__init__.py` outside the given
sources): exit status, combined output text, executed code, originating
message, and marshaled variables. -/
structure ChatResponse where
  status : Nat
  output : String
  code : String
  prompt : OaiMessage
  outVariables : List (String × String)
deriving DecidableEq, Repr

/-- The `code_execution_config` of the handler: Python `False` or a
dictionary carrying `last_n_messages` (default 1). -/
inductive CodeExecConfig where
  | off
  | on (lastN : Nat)
deriving DecidableEq, Repr

/-- The scan of `generate_execute_code_reply` over the most recent
messages (already reversed and truncated to the lookback window): skip a
message with falsy content or whose extraction is a single `unknown`
block, and execute the python blocks of the first qualifying message
through `exec_capture_output` with the list `[]` as `target_names`. -/
def scan_messages (execOracle : String → PyExecOutcome) :
    List OaiMessage → Bool × Option ChatResponse
  | [] => (false, none)
  | m :: rest =>
    match m.content with
    | none => scan_messages execOracle rest
    | some c =>
      if c = "" then scan_messages execOracle rest
      else
        let codeBlocks := extract_code c
        if codeBlocks.length = 1 ∧ (codeBlocks.headD (("" : String), ("" : String))).1 = "unknown" then
          scan_messages execOracle rest
        else
          let codes := (codeBlocks.filter (fun b => b.1 = "python")).map Prod.snd
          let codeStr := String.intercalate ("\n") codes
          let r := exec_capture_output (execOracle codeStr) .pylist
            { stdout := .standard, stderr := .standard }
          let exitcode := r.1.1
          let exitcode2str := if exitcode = 0 then ("execution succeeded" : String)
            else ("execution failed" : String)
          (true, some
            { status := exitcode
              output := "exitcode: " ++ toString exitcode ++ " (" ++ exitcode2str ++
                ")\nCode output: " ++ r.1.2.1
              code := codeStr
              prompt := m
              outVariables := r.1.2.2 })

/-- `PythonSandboxAgent.generate_execute_code_reply` with the sandbox
execution boundary as an oracle: inconclusive when the config is
`False`, otherwise scan the last `last_n_messages` messages
most-recent-first and execute the first qualifying code blocks. -/
def generate_execute_code_reply (execOracle : String → PyExecOutcome)
    (cfg : CodeExecConfig) (messages : List OaiMessage) :
    Bool × Option ChatResponse :=
  match cfg with
  | .off => (false, none)
  | .on lastN =>
    scan_messages execOracle (messages.reverse.take (min messages.length lastN))

/-! ## Concrete scenarios used by the claim theorems -/

/-- An agent state with no history, no reply entries, untouched default
dictionaries and the default `default_auto_reply` (the empty string). -/
def emptyAgentState : AgentState :=
  { messages := fun _ => []
    replyAtReceive := fun _ => false
    autoReplyCounter := fun _ => 0
    entries := []
    defaultAutoReply := some (.ofString "") }

/-- A reply function that always declines: `generate_llm_reply` when no
model backend is attached (`self.llm is None` returns `(False, None)`). -/
def declineRFunc : RFunc := { id := 0, isAsync := false, run := fun _ _ _ => (false, none) }

/-- The single entry registered by `ConversableAgent.__init__`:
`register_reply([Agent, None], ConversableAgent.generate_llm_reply)`,
here with a declining model backend. -/
def declineEntry : Entry :=
  { trigger := .anyOf [.agentClass, .noneTrigger], replyFunc := declineRFunc, config := none }

/-- A base agent whose every handler declines, with the default
`default_auto_reply = ""`. -/
def declineAgentState : AgentState :=
  { emptyAgentState with entries := [declineEntry] }

/-- Two base agents `A` and `B`, each holding one always-declining reply
entry and the default empty-string auto reply. -/
def roundTripWorld : TwoAgentWorld :=
  { stA := declineAgentState
    stB := declineAgentState
    refA := { id := 0, isRemote := false, name := "A" }
    refB := { id := 1, isRemote := false, name := "B" }
  }

/-- The run of `initiate_chat(B, message="hi")` from `A` in
`roundTripWorld`, bounded at five nested send/receive calls. -/
def roundTripRun : Outcome × TwoAgentWorld :=
  initiate_chat 5 roundTripWorld .A .B true (.ofString "hi")

/-- The invariant of the round-trip world that drives the unbounded
recursion: both agents hold exactly the declining entry, reply with the
empty default auto reply, and have `reply_at_receive` true for each
other. -/
def RoundTripInv (w : TwoAgentWorld) : Prop :=
  (∀ s : Side, (stOf w s).entries = [declineEntry]) ∧
  (∀ s : Side, (stOf w s).defaultAutoReply = some (.ofString "")) ∧
  (∀ s : Side, (stOf w s).replyAtReceive (.ref (refOf w s.other)) = true)

/-! ## Helper lemmas -/

theorem Side.other_other (s : Side) : s.other.other = s := by
  cases s <;> rfl

theorem append_message_some_fields {st st2 : AgentState} {m : MessageInput}
    {r : String} {c : ConvId} (h : append_message st m r c = some st2) :
    st2.entries = st.entries ∧ st2.defaultAutoReply = st.defaultAutoReply ∧
    st2.replyAtReceive = st.replyAtReceive := by
  unfold append_message at h
  cases hm : mk_oai_message m r with
  | none => rw [hm] at h; simp at h
  | some om =>
    rw [hm] at h
    simp only [Option.map_some'] at h
    cases h
    exact ⟨rfl, rfl, rfl⟩

theorem refOf_setSt (w : TwoAgentWorld) (side : Side) (st : AgentState) (s : Side) :
    refOf (setSt w side st) s = refOf w s := by
  cases side <;> cases s <;> rfl

theorem stOf_setSt_same (w : TwoAgentWorld) (side : Side) (st : AgentState) :
    stOf (setSt w side st) side = st := by
  cases side <;> rfl

theorem roundTripInv_setSt_append {w : TwoAgentWorld} {self : Side}
    {st2 : AgentState} {m : MessageInput} {r : String} {c : ConvId}
    (hw : RoundTripInv w) (h : append_message (stOf w self) m r c = some st2) :
    RoundTripInv (setSt w self st2) := by
  obtain ⟨he, hd, hr⟩ := hw
  obtain ⟨f1, f2, f3⟩ := append_message_some_fields h
  have hstOf : ∀ s : Side,
      (stOf (setSt w self st2) s).entries = [declineEntry]
      ∧ (stOf (setSt w self st2) s).defaultAutoReply = some (.ofString "")
      ∧ (stOf (setSt w self st2) s).replyAtReceive = (stOf w s).replyAtReceive := by
    intro s
    by_cases hs : s = self
    · subst hs
      rw [stOf_setSt_same]
      exact ⟨f1.trans (he s), f2.trans (hd s), f3⟩
    · have heq : stOf (setSt w self st2) s = stOf w s := by
        cases self <;> cases s <;> simp_all [setSt, stOf]
      rw [heq]
      exact ⟨he s, hd s, rfl⟩
  refine ⟨fun s => (hstOf s).1, fun s => (hstOf s).2.1, fun s => ?_⟩
  rw [refOf_setSt, (hstOf s).2.2]
  exact hr s

/-- Dispatching the single always-declining entry falls through to the
default auto reply. -/
theorem dispatch_decline (msgs : List OaiMessage) (sender : Option ConvId)
    (dflt : Option MessageInput) :
    dispatch [declineEntry] msgs sender none dflt = dflt := rfl

/-- In a round-trip world where every handler declines and the default
auto reply is the empty string, the send/receive recursion never
completes: it re-sends the empty reply until the fuel runs out. -/
theorem roundTrip_no_done :
    ∀ (n : Nat) (call : Call) (w : TwoAgentWorld) (self : Side) (s : String),
      RoundTripInv w →
      (stepM n call w self self.other (.ofString s) none).1 = .fuelOut := by
  intro n
  induction n with
  | zero => intro call w self s _; cases call <;> rfl
  | succ n ih =>
    intro call w self s hw
    cases call with
    | send =>
      obtain ⟨st2, happ⟩ : ∃ st2,
          append_message (stOf w self) (.ofString s) "assistant"
            (ConvId.ref (refOf w self.other)) = some st2 := ⟨_, rfl⟩
      show (stepM (n + 1) .send w self self.other (.ofString s) none).1 = .fuelOut
      rw [stepM, happ]
      have hnext := ih .recv (setSt w self st2) self.other s
        (roundTripInv_setSt_append hw happ)
      rw [Side.other_other] at hnext
      exact hnext
    | recv =>
      obtain ⟨st2, happ⟩ : ∃ st2,
          append_message (stOf w self) (.ofString s) "user"
            (ConvId.ref (refOf w self.other)) = some st2 := ⟨_, rfl⟩
      obtain ⟨f1, f2, f3⟩ := append_message_some_fields happ
      show (stepM (n + 1) .recv w self self.other (.ofString s) none).1 = .fuelOut
      rw [stepM, happ]
      dsimp only
      rw [if_neg (by simp [f3, hw.2.2 self])]
      have hgen : generate_reply st2
          (some (st2.messages (ConvId.ref (refOf w self.other))))
          (some (ConvId.ref (refOf w self.other))) none
          = some (some (.ofString "")) := by
        simp only [generate_reply]
        rw [f1, hw.1 self, dispatch_decline, f2, hw.2.1 self]
      rw [hgen]
      exact ih .send (setSt w self st2) self ""
        (roundTripInv_setSt_append hw happ)

theorem skip_entry_none (e : Entry) : skip_entry none e = e.replyFunc.isAsync := by
  simp [skip_entry]

/-- Where the dispatch loop stops: with no exclusions, all entries up to
position `k` synchronous, entries before `k` inconclusive and entry `k`
conclusive, the loop returns entry `k`'s reply having evaluated exactly
positions `i, i+1, ..., i+k`. -/
theorem dispatch_aux_spec (msgs : List OaiMessage) (sender : Option ConvId) :
    ∀ (l : List Entry) (k i : Nat) (hk : k < l.length),
      (∀ j (hj : j < l.length), j ≤ k → (l.get ⟨j, hj⟩).replyFunc.isAsync = false) →
      (∀ j (hj : j < l.length), j < k → (run_entry (l.get ⟨j, hj⟩) msgs sender).1 = false) →
      (run_entry (l.get ⟨k, hk⟩) msgs sender).1 = true →
      dispatch_aux msgs sender none l i
        = (some (run_entry (l.get ⟨k, hk⟩) msgs sender).2, List.range' i (k + 1)) := by
  intro l
  induction l with
  | nil =>
    intro k i hk
    exact absurd hk (by simp)
  | cons e rest ihl =>
    intro k i hk hsync hnf hf
    have hs0 : e.replyFunc.isAsync = false := hsync 0 (by simp) (Nat.zero_le k)
    cases k with
    | zero =>
      have hf0 : (run_entry e msgs sender).1 = true := hf
      simp [dispatch_aux, skip_entry_none, hs0, hf0, List.range']
    | succ k2 =>
      have hnf0 : (run_entry e msgs sender).1 = false := hnf 0 (by simp) (Nat.succ_pos k2)
      have hk2 : k2 < rest.length := by simpa using hk
      have ih := ihl k2 (i + 1) hk2
        (fun j hj hjk => hsync (j + 1) (by simpa using hj) (by omega))
        (fun j hj hjk => hnf (j + 1) (by simpa using hj) (by omega))
        (by simpa using hf)
      simp only [dispatch_aux, skip_entry_none, hs0, Bool.false_eq_true, if_false, hnf0, ih]
      simp [List.range', List.range'_succ]

/-- A loop over entries that are all synchronous and inconclusive falls
through. -/
theorem dispatch_aux_all_decline (msgs : List OaiMessage) (sender : Option ConvId) :
    ∀ (l : List Entry) (i : Nat),
      (∀ e ∈ l, e.replyFunc.isAsync = false ∧ (run_entry e msgs sender).1 = false) →
      (dispatch_aux msgs sender none l i).1 = none := by
  intro l
  induction l with
  | nil => intro i _; rfl
  | cons e rest ihl =>
    intro i hall
    have he := hall e (by simp)
    simp only [dispatch_aux, skip_entry_none, he.1, Bool.false_eq_true, if_false, he.2]
    exact ihl (i + 1) (fun x hx => hall x (by simp [hx]))

/-- When every model response over the retrieved chunks carries the
context-update marker, the retry loop runs until the retry bound or the
chunks are exhausted: entered at document `c` with `c + 1` attempts
already made, it ends with `min retry (length contents)` attempts and
the marker flag still set. -/
theorem retrieval_loop_all_marker (llm : String → String) (question : String)
    (contents : List String) (retry : Nat)
    (hall : ∀ i (hi : i < contents.length),
      marker_in (llm (mk_prompt question (contents.get ⟨i, hi⟩))) = true) :
    ∀ (d c : Nat) (v : String), retry - c ≤ d → c < retry → c < contents.length →
      (retrieval_loop llm question contents retry c (c + 1) v true).1
          = min retry contents.length
      ∧ (retrieval_loop llm question contents retry c (c + 1) v true).2.2 = true := by
  intro d
  induction d with
  | zero =>
    intro c v hd hc hlen
    omega
  | succ d ihd =>
    intro c v hd hc hlen
    rw [retrieval_loop]
    by_cases hb : c + 1 ≥ retry ∨ c + 1 ≥ contents.length
    · rw [if_pos rfl, dif_pos hb]
      constructor
      · simp only
        omega
      · rfl
    · rw [if_pos rfl, dif_neg hb]
      push_neg at hb
      have hlt : c + 1 < contents.length := hb.2
      dsimp only
      rw [hall (c + 1) hlt]
      exact ihd (c + 1) _ (by omega) hb.1 hlt

theorem lookupA_filter {α : Type} (l : List (String × α)) (g : String × α → Bool)
    (f : String → Bool) (hg : ∀ p, g p = f p.1) (k : String) :
    lookupA (l.filter g) k = if f k then lookupA l k else none := by
  induction l with
  | nil => simp [lookupA]
  | cons p rest ih =>
    obtain ⟨a, b⟩ := p
    by_cases hak : a = k
    · subst hak
      by_cases hfa : f a = true
      · simp [List.filter_cons, hg, hfa, lookupA]
      · simp [List.filter_cons, hg, hfa, lookupA, ih]
    · by_cases hfa : f a = true
      · simp [List.filter_cons, hg, hfa, lookupA, hak, ih]
      · simp [List.filter_cons, hg, hfa, lookupA, hak, ih]

theorem lookupA_append {α : Type} (l1 l2 : List (String × α)) (k : String) :
    lookupA (l1 ++ l2) k
      = match lookupA l1 k with
        | some v => some v
        | none => lookupA l2 k := by
  induction l1 with
  | nil => simp [lookupA]
  | cons p rest ih =>
    by_cases hp : p.1 = k <;> simp [lookupA, hp, ih]

theorem mem_updateA_of_ne {α : Type} {l : List (String × α)} {m k : String}
    {t : α} {v : α} (hne : m ≠ k) (hmem : (m, t) ∈ l) : (m, t) ∈ updateA l k v := by
  unfold updateA
  by_cases h : l.any (fun p => p.1 = k)
  · rw [if_pos h]
    exact List.mem_map.mpr ⟨(m, t), hmem, by simp [hne]⟩
  · rw [if_neg h]
    exact List.mem_append_left _ hmem

theorem updateA_mem_key {α : Type} {l : List (String × α)} {k : String} {v v2 : α}
    (h : (k, v2) ∈ updateA l k v) : v2 = v := by
  unfold updateA at h
  by_cases ha : l.any (fun p => p.1 = k)
  · rw [if_pos ha] at h
    obtain ⟨⟨a, b⟩, hmem, heq⟩ := List.mem_map.mp h
    by_cases hak : a = k <;> simp_all
  · rw [if_neg ha] at h
    rcases List.mem_append.mp h with hmem | hmem
    · exfalso
      exact ha (List.any_eq_true.mpr ⟨(k, v2), hmem, by simp⟩)
    · simp at hmem
      exact hmem

/-! ## Claim theorems -/

/-- C1.  The claim says `generate_reply` skips every entry whose trigger
does not match the sender.  The code never reads the trigger: with a
single entry whose trigger is the name `Alice` and a sender named `Bob`,
the trigger does not match, yet dispatch evaluates the handler and
returns its conclusive reply instead of skipping to the default auto
reply. -/
theorem claim1_dispatch_ignores_trigger :
    match_trigger (.nameIs "Alice") (some (.ref { id := 7, isRemote := true, name := "Bob" })) = false
    ∧ dispatch
        [{ trigger := .nameIs "Alice"
           replyFunc := { id := 0, isAsync := false
                          run := fun _ _ _ => (true, some (.ofString "from-handler")) }
           config := none }]
        [] (some (.ref { id := 7, isRemote := true, name := "Bob" })) none
        (some (.ofString "DEFAULT"))
      = some (.ofString "from-handler") := by
  refine ⟨?_, rfl⟩
  simp [match_trigger]

/-- C2.  The claim says a reply is sent back only when it is non-empty,
so that `initiate_chat(B, message="hi")` with all handlers declining
leaves exactly one entry per side and no further recursion.  The code
tests `reply is not None`: the empty-string default auto reply is sent
back, and the two agents keep exchanging empty messages — with five
nested calls the run is still recursing (`fuelOut`), A's history for B
already holds three entries and B's history for A two, and no fuel bound
ever lets the recursion complete. -/
theorem claim2_empty_reply_recurses_forever :
    (roundTripRun.1 = Outcome.fuelOut
      ∧ (roundTripRun.2.stA.messages (.ref { id := 1, isRemote := false, name := "B" })).length = 3
      ∧ (roundTripRun.2.stB.messages (.ref { id := 0, isRemote := false, name := "A" })).length = 2)
    ∧ ∀ fuel : Nat,
        (initiate_chat fuel roundTripWorld .A .B true (.ofString "hi")).1 = Outcome.fuelOut := by
  constructor
  · exact ⟨by decide, by decide, by decide⟩
  · intro fuel
    have hinv : RoundTripInv (prepare_chat roundTripWorld .A .B true) := by
      refine ⟨fun s => ?_, fun s => ?_, fun s => ?_⟩ <;> cases s <;> rfl
    exact roundTrip_no_done fuel .send (prepare_chat roundTripWorld .A .B true) .A "hi" hinv

/-- C4.  A message carrying neither `content` nor `function_call` makes
`_append_message` report failure before touching the history, and both
`send` and `receive` raise a `ValueError` to the caller with the world
left exactly as it was. -/
theorem claim4_invalid_message_append_raises
    (m : PyMessage) (hc : m.content = none) (hfc : m.function_call = none)
    (n : Nat) (w : TwoAgentWorld) (self other : Side) (rr : Option Bool) :
    sendM (n + 1) w self other (.ofDict m) rr = (.error send_invalid_error, w)
    ∧ recvM (n + 1) w self other (.ofDict m) rr = (.error receive_invalid_error, w) := by
  have hmk : ∀ role, mk_oai_message (.ofDict m) role = none := by
    intro role
    simp [mk_oai_message, message_to_dict, hc, hfc]
  constructor <;> simp [sendM, recvM, stepM, append_message, hmk]

/-- C4, witness: the concrete message `{role := user}` with no content
and no function call is rejected by both `send` and `receive`. -/
theorem claim4_invalid_message_append_raises_witness :
    sendM 1 roundTripWorld .A .B
        (.ofDict { content := none, function_call := none, name := none,
                   context := none, role := some "user" }) none
      = (.error send_invalid_error, roundTripWorld)
    ∧ recvM 1 roundTripWorld .A .B
        (.ofDict { content := none, function_call := none, name := none,
                   context := none, role := some "user" }) none
      = (.error receive_invalid_error, roundTripWorld) :=
  claim4_invalid_message_append_raises _ rfl rfl 0 roundTripWorld .A .B none

/-- C3.  The claim says history is keyed by the resolved participant
name.  `_append_message` keys `_messages` by the handle object itself:
after receiving the same message through two distinct remote handles
that share the name `X`, the two entries live under the two handles (one
each), the name-keyed sequence that
`PythonSandboxAgent.generate_reply` reads through `get_agent_name` is
empty, and the two same-named handles do not share a history. -/
theorem claim3_history_keyed_by_handle_not_name :
    get_agent_name { id := 1, isRemote := true, name := "X" }
      = get_agent_name { id := 2, isRemote := true, name := "X" }
    ∧ ({ id := 1, isRemote := true, name := "X" } : AgentRef)
      ≠ { id := 2, isRemote := true, name := "X" }
    ∧ ((append_message_d
          (append_message_d emptyAgentState (.ofString "hi") "user"
            (.ref { id := 1, isRemote := true, name := "X" }))
          (.ofString "hi") "user"
          (.ref { id := 2, isRemote := true, name := "X" })).messages
        (.ref { id := 1, isRemote := true, name := "X" })).length = 1
    ∧ ((append_message_d
          (append_message_d emptyAgentState (.ofString "hi") "user"
            (.ref { id := 1, isRemote := true, name := "X" }))
          (.ofString "hi") "user"
          (.ref { id := 2, isRemote := true, name := "X" })).messages
        (.ref { id := 2, isRemote := true, name := "X" })).length = 1
    ∧ sandbox_history_lookup
        (append_message_d
          (append_message_d emptyAgentState (.ofString "hi") "user"
            (.ref { id := 1, isRemote := true, name := "X" }))
          (.ofString "hi") "user"
          (.ref { id := 2, isRemote := true, name := "X" }))
        { id := 1, isRemote := true, name := "X" } = [] := by
  refine ⟨rfl, by decide, ?_, ?_, ?_⟩ <;> decide

/-- C8, amended.  At each access through `get_or_create_sandbox`, every
sandbox other than the accessed one whose idle time exceeds the timeout
is discarded before the access proceeds; the accessed name's timestamp
is refreshed before the sweep, so a pooled sandbox under the accessed
name — stale or not — is returned as-is with its session variables
preserved, and a fresh sandbox is created only when the name is absent
from the pool. -/
theorem claim8_sandbox_eviction_amended
    (pool : SandboxPool) (now : Nat) (name m : String) (t : Nat)
    (hmem : (m, t) ∈ pool.lastedUpdated) (hidle : now - t > 60 * 60)
    (hne : m ≠ name) :
    lookupA (get_or_create_sandbox pool now name).2.sandboxes m = none
    ∧ ∀ sb : Sandbox, lookupA pool.sandboxes name = some sb →
        (get_or_create_sandbox pool now name).1 = sb
        ∧ lookupA (get_or_create_sandbox pool now name).2.sandboxes name = some sb := by
  have hrm_m :
      (((updateA pool.lastedUpdated name now).filter
          (fun p => now - p.2 > 60 * 60)).map Prod.fst).contains m = true := by
    refine List.elem_iff.mpr ?_
    refine List.mem_map.mpr ⟨(m, t), ?_, rfl⟩
    refine List.mem_filter.mpr ⟨mem_updateA_of_ne hne hmem, ?_⟩
    simpa using hidle
  have hrm_name :
      (((updateA pool.lastedUpdated name now).filter
          (fun p => now - p.2 > 60 * 60)).map Prod.fst).contains name = false := by
    by_contra hcon
    rw [Bool.not_eq_false] at hcon
    obtain ⟨⟨a, tv⟩, hmemf, hfst⟩ := List.mem_map.mp (List.elem_iff.mp hcon)
    simp only at hfst
    subst hfst
    obtain ⟨hmem1, hidle1⟩ := List.mem_filter.mp hmemf
    have htv : tv = now := updateA_mem_key hmem1
    subst htv
    simp at hidle1
  have hlook_m :
      lookupA (pool.sandboxes.filter
        (fun p => !(((updateA pool.lastedUpdated name now).filter
            (fun q => now - q.2 > 60 * 60)).map Prod.fst).contains p.1)) m = none := by
    rw [lookupA_filter pool.sandboxes _
      (fun s => !(((updateA pool.lastedUpdated name now).filter
          (fun q => now - q.2 > 60 * 60)).map Prod.fst).contains s)
      (fun _ => rfl) m]
    simp only [hrm_m, Bool.not_true, Bool.false_eq_true, if_false]
  have hlook_name :
      lookupA (pool.sandboxes.filter
        (fun p => !(((updateA pool.lastedUpdated name now).filter
            (fun q => now - q.2 > 60 * 60)).map Prod.fst).contains p.1)) name
      = lookupA pool.sandboxes name := by
    rw [lookupA_filter pool.sandboxes _
      (fun s => !(((updateA pool.lastedUpdated name now).filter
          (fun q => now - q.2 > 60 * 60)).map Prod.fst).contains s)
      (fun _ => rfl) name]
    simp only [hrm_name, Bool.not_false, if_true]
  constructor
  · simp only [get_or_create_sandbox, check_sandbox_timeout]
    cases hsb : lookupA (pool.sandboxes.filter
        (fun p => !(((updateA pool.lastedUpdated name now).filter
            (fun q => now - q.2 > 60 * 60)).map Prod.fst).contains p.1)) name with
    | some sb0 =>
      dsimp only
      exact hlook_m
    | none =>
      dsimp only
      rw [lookupA_append, hlook_m]
      simp [lookupA, hne.symm]
  · intro sb hsb0
    have hsome : lookupA (pool.sandboxes.filter
        (fun p => !(((updateA pool.lastedUpdated name now).filter
            (fun q => now - q.2 > 60 * 60)).map Prod.fst).contains p.1)) name
        = some sb := hlook_name.trans hsb0
    constructor
    · simp only [get_or_create_sandbox, check_sandbox_timeout]
      rw [hsome]
    · simp only [get_or_create_sandbox, check_sandbox_timeout]
      rw [hsome]
      dsimp only
      exact hsome

/-- C8, amended, witness: accessing `Y` at time 7200 evicts the stale
sandbox `X` (last used at 0) while the pooled sandbox `Y` is returned
unchanged. -/
theorem claim8_sandbox_eviction_amended_witness :
    lookupA (get_or_create_sandbox
      { sandboxes := [("X", { id := 0, sessionVariables := [("a", "1")] }),
                      ("Y", { id := 5, sessionVariables := [("b", "2")] })]
        lastedUpdated := [("X", 0), ("Y", 7000)], nextId := 6 } 7200 "Y").2.sandboxes "X"
      = none
    ∧ (get_or_create_sandbox
      { sandboxes := [("X", { id := 0, sessionVariables := [("a", "1")] }),
                      ("Y", { id := 5, sessionVariables := [("b", "2")] })]
        lastedUpdated := [("X", 0), ("Y", 7000)], nextId := 6 } 7200 "Y").1
      = { id := 5, sessionVariables := [("b", "2")] } := by
  have h := claim8_sandbox_eviction_amended
    { sandboxes := [("X", { id := 0, sessionVariables := [("a", "1")] }),
                    ("Y", { id := 5, sessionVariables := [("b", "2")] })]
      lastedUpdated := [("X", 0), ("Y", 7000)], nextId := 6 }
    7200 "Y" "X" 0 (by decide) (by decide) (by decide)
  exact ⟨h.1, (h.2 { id := 5, sessionVariables := [("b", "2")] } (by decide)).1⟩

/-- C9.  The claim says the message with the fenced block
`print(1+1)` yields a conclusive execution response with status 0 and
output containing `2`.  `generate_execute_code_reply` passes the list
`[]` as `target_names`, so even when the interpreter boundary reports a
successful run that captured `2`, `exec_capture_output` hits the
`AttributeError` of `.items()` on a list and the returned status is 1,
not 0.  The second half of the claim does hold: a message with no fenced
block is inconclusive. -/
theorem claim9_execute_code_status_one :
    (generate_execute_code_reply (fun _ => .ok "2\n" []) (.on 1)
        [{ content := some "```python\nprint(1+1)\n```", function_call := none,
           name := none, context := none, role := "user" }]).1 = true
    ∧ ((generate_execute_code_reply (fun _ => .ok "2\n" []) (.on 1)
        [{ content := some "```python\nprint(1+1)\n```", function_call := none,
           name := none, context := none, role := "user" }]).2.map
          (fun r => r.status)) = some 1
    ∧ generate_execute_code_reply (fun _ => .ok "2\n" []) (.on 1)
        [{ content := some "hello", function_call := none,
           name := none, context := none, role := "user" }] = (false, none) := by
  refine ⟨?_, ?_, ?_⟩ <;> decide

/-- C10.  When the executed code raises, `exec_capture_output` returns
`(1, formatted traceback, empty mapping)` without raising, and the
process-wide streams stay redirected to the capture buffer; the
restoration to the standard streams happens only on the success path. -/
theorem claim10_exec_capture_output_restores_only_on_success
    (tb : String) (target : TargetNames) (s : Streams) (captured : String)
    (vars : List (String × String)) (names : List String) :
    exec_capture_output (.exn tb) target s
      = ((1, format_exc tb, []), { stdout := .buffer, stderr := .buffer })
    ∧ (exec_capture_output (.ok captured vars) (.pydict names) s).2
      = { stdout := .standard, stderr := .standard } := by
  exact ⟨rfl, rfl⟩

/-- C5, counterexample.  The claim says a message whose role is
`function` keeps that role for any message shape, including one that
also carries a `function_call`.  Appending such a message stores role
`assistant` (line 238 of `conversable_agent.py` forces `assistant`
whenever a `function_call` is present), not `function`. -/
theorem claim5_role_function_with_call_counterexample :
    ¬ (((append_message emptyAgentState
          (.ofDict { content := some (some "x"), function_call := some "fc",
                     name := none, context := none, role := some "function" })
          "user" (.str "S")).map
          (fun st => (st.messages (.str "S")).map (fun om => om.role)))
        = some ["function"])
    ∧ ((append_message emptyAgentState
          (.ofDict { content := some (some "x"), function_call := some "fc",
                     name := none, context := none, role := some "function" })
          "user" (.str "S")).map
          (fun st => (st.messages (.str "S")).map (fun om => om.role)))
        = some ["assistant"] := by
  exact ⟨by decide, by decide⟩

/-- C5, amended.  A message whose role field is `function` keeps role
`function` in the appended history entry regardless of the append-time
role argument, provided it carries no `function_call`; when a
`function_call` is present the stored role is forced to `assistant`. -/
theorem claim5_role_function_amended
    (m : PyMessage) (roleArg : String) (st : AgentState) (cid : ConvId)
    (st2 : AgentState) (hrole : m.role = some "function")
    (happ : append_message st (.ofDict m) roleArg cid = some st2) :
    (m.function_call = none →
      (st2.messages cid).getLast?.map (fun om => om.role) = some "function")
    ∧ (m.function_call ≠ none →
      (st2.messages cid).getLast?.map (fun om => om.role) = some "assistant") := by
  unfold append_message at happ
  cases hmk : mk_oai_message (.ofDict m) roleArg with
  | none => rw [hmk] at happ; simp at happ
  | some om =>
    rw [hmk] at happ
    simp only [Option.map_some'] at happ
    cases happ
    have hmsg : (({ st with
        messages := fun c => if c = cid then st.messages c ++ [om] else st.messages c }
          : AgentState).messages cid).getLast? = some om := by
      simp [List.getLast?_concat]
    constructor
    · intro hfc
      have hrole2 : om.role = "function" := by
        simp only [mk_oai_message, message_to_dict] at hmk
        cases hcon : m.content with
        | none => rw [hcon, hfc] at hmk; simp at hmk
        | some cv =>
          rw [hcon, hfc] at hmk
          simp only [Option.some.injEq] at hmk
          rw [← hmk]
          simp [hrole]
      rw [hmsg]
      simp [hrole2]
    · intro hfc
      obtain ⟨fc, hfc⟩ := Option.ne_none_iff_exists'.mp hfc
      have hrole2 : om.role = "assistant" := by
        simp only [mk_oai_message, message_to_dict] at hmk
        cases hcon : m.content with
        | none =>
          rw [hcon, hfc] at hmk
          simp only [Option.some.injEq] at hmk
          rw [← hmk]
          simp
        | some cv =>
          rw [hcon, hfc] at hmk
          simp only [Option.some.injEq] at hmk
          rw [← hmk]
          simp
      rw [hmsg]
      simp [hrole2]

/-- C5, amended, witness: with content `x` and role `function`, the
appended entry keeps role `function` when no `function_call` is present
and gets role `assistant` when one is. -/
theorem claim5_role_function_amended_witness :
    ((append_message emptyAgentState
        (.ofDict { content := some (some "x"), function_call := none,
                   name := none, context := none, role := some "function" })
        "user" (.str "S")).map
        (fun st => (st.messages (.str "S")).getLast?.map (fun om => om.role)))
      = some (some "function")
    ∧ ((append_message emptyAgentState
        (.ofDict { content := some (some "x"), function_call := some "fc",
                   name := none, context := none, role := some "function" })
        "user" (.str "S")).map
        (fun st => (st.messages (.str "S")).getLast?.map (fun om => om.role)))
      = some (some "assistant") := by
  constructor
  · cases happ : append_message emptyAgentState
        (.ofDict { content := some (some "x"), function_call := none,
                   name := none, context := none, role := some "function" })
        "user" (.str "S") with
    | none => exact absurd happ (by simp [append_message, mk_oai_message, message_to_dict])
    | some st2 =>
      have h := (claim5_role_function_amended _ "user" emptyAgentState (.str "S") st2
        rfl happ).1 rfl
      simp [h]
  · cases happ : append_message emptyAgentState
        (.ofDict { content := some (some "x"), function_call := some "fc",
                   name := none, context := none, role := some "function" })
        "user" (.str "S") with
    | none => exact absurd happ (by simp [append_message, mk_oai_message, message_to_dict])
    | some st2 =>
      have h := (claim5_role_function_amended _ "user" emptyAgentState (.str "S") st2
        rfl happ).2 (by simp)
      simp [h]

/-- C6.  Reply dispatch is order-respecting and short-circuiting: with
no exclusions and synchronous entries, when only the k-th entry is
conclusive the loop evaluates exactly positions 0..k in order and
returns the k-th reply; when no entry is conclusive it returns the
configured default auto reply; and `register_reply` with the default
position 0 prepends, so later registrations are checked first. -/
theorem claim6_dispatch_order_short_circuit
    (entries : List Entry) (msgs : List OaiMessage) (sender : Option ConvId)
    (dflt : Option MessageInput) (k : Nat) (hk : k < entries.length)
    (hsync : ∀ j (hj : j < entries.length), j ≤ k →
      (entries.get ⟨j, hj⟩).replyFunc.isAsync = false)
    (hnf : ∀ j (hj : j < entries.length), j < k →
      (run_entry (entries.get ⟨j, hj⟩) msgs sender).1 = false)
    (hf : (run_entry (entries.get ⟨k, hk⟩) msgs sender).1 = true) :
    dispatch_trace entries msgs sender none dflt
      = ((run_entry (entries.get ⟨k, hk⟩) msgs sender).2, List.range (k + 1))
    ∧ (∀ (tr : Trigger) (f : RFunc) (cfg : Option String),
        register_reply entries tr f 0 cfg
          = { trigger := tr, replyFunc := f, config := cfg } :: entries)
    ∧ (∀ es : List Entry,
        (∀ e ∈ es, e.replyFunc.isAsync = false ∧ (run_entry e msgs sender).1 = false) →
        dispatch es msgs sender none dflt = dflt) := by
  refine ⟨?_, ?_, ?_⟩
  · unfold dispatch_trace
    rw [dispatch_aux_spec msgs sender entries k 0 hk hsync hnf hf]
    simp [List.range_eq_range']
  · intro tr f cfg
    cases entries <;> rfl
  · intro es hes
    unfold dispatch dispatch_trace
    dsimp only
    rw [dispatch_aux_all_decline msgs sender es 0 hes]
    rfl

/-- C6, witness: three entries of which only the second is conclusive;
dispatch returns the second reply having evaluated positions 0 and 1. -/
theorem claim6_dispatch_order_short_circuit_witness :
    dispatch_trace
      [{ trigger := .noneTrigger
         replyFunc := { id := 10, isAsync := false, run := fun _ _ _ => (false, none) }
         config := none },
       { trigger := .noneTrigger
         replyFunc := { id := 11, isAsync := false
                        run := fun _ _ _ => (true, some (.ofString "k-reply")) }
         config := none },
       { trigger := .noneTrigger
         replyFunc := { id := 12, isAsync := false
                        run := fun _ _ _ => (true, some (.ofString "must-not-run")) }
         config := none }]
      [] none none (some (.ofString "DEFAULT"))
      = (some (.ofString "k-reply"), [0, 1]) := by
  have h := claim6_dispatch_order_short_circuit
    [{ trigger := .noneTrigger
       replyFunc := { id := 10, isAsync := false, run := fun _ _ _ => (false, none) }
       config := none },
     { trigger := .noneTrigger
       replyFunc := { id := 11, isAsync := false
                      run := fun _ _ _ => (true, some (.ofString "k-reply")) }
       config := none },
     { trigger := .noneTrigger
       replyFunc := { id := 12, isAsync := false
                      run := fun _ _ _ => (true, some (.ofString "must-not-run")) }
       config := none }]
    [] none (some (.ofString "DEFAULT")) 1 (by decide)
    (fun j hj hjk => by
      match j, hj with
      | 0, _ => rfl
      | 1, _ => rfl
      | Nat.succ (Nat.succ j2), _ => omega)
    (fun j hj hjk => by
      match j, hj with
      | 0, _ => rfl
      | 1, _ => omega
      | Nat.succ (Nat.succ j2), _ => omega)
    rfl
  exact h.1.trans (by rfl)

/-- C7, counterexample.  The claim as stated (`exactly
min(update_context_retry, number of retrieved chunks)` attempts, the
fixed failure value on exhaustion) fails at the edges.  With retry
bound 0 and one retrieved chunk whose response carries the marker, the
handler still makes one model attempt — the initial
`generate_llm_reply` call on line 190 of `retrieval_agent.py` precedes
the `while` loop — and returns the failure value after 1 attempt,
although `min 0 1 = 0`.  With zero retrieved chunks the handler raises
`IndexError` at `contents[0]` (line 187, modelled as `none`) instead of
returning the failure value after `min retry 0 = 0` attempts. -/
theorem claim7_retry_bound_edge_counterexample :
    generate_retrieval_based_reply (fun _ => "UPDATE CONTEXT") "q" ["c1"] 0
      = some (1, true, "FAIL TO ANSWER")
    ∧ (1 : Nat) ≠ min 0 1
    ∧ generate_retrieval_based_reply (fun _ => "UPDATE CONTEXT") "q" [] 3 = none := by
  refine ⟨?_, by decide, rfl⟩
  have hloop : retrieval_loop (fun _ => "UPDATE CONTEXT") "q" ["c1"] 0 0 1
      "UPDATE CONTEXT" true = (1, "UPDATE CONTEXT", true) := by
    rw [retrieval_loop]
    rw [if_pos rfl, dif_pos (by omega)]
  have hm : marker_in "UPDATE CONTEXT" = true := by decide
  simp only [generate_retrieval_based_reply, hm, hloop]
  rfl

/-- C7, amended.  When the retrieval store returns at least one chunk
and the retry bound is positive, if every model response over the
retrieved chunks carries the `UPDATE CONTEXT` marker in its leading or
trailing 20 characters, the handler returns the fixed failure reply
`FAIL TO ANSWER` conclusively after exactly
`min update_context_retry (number of retrieved chunks)` model attempts,
never more. -/
theorem claim7_retrieval_retry_bound (llm : String → String) (question : String)
    (contents : List String) (retry : Nat)
    (hc : 0 < contents.length) (hr : 0 < retry)
    (hall : ∀ i (hi : i < contents.length),
      marker_in (llm (mk_prompt question (contents.get ⟨i, hi⟩))) = true) :
    generate_retrieval_based_reply llm question contents retry
      = some (min retry contents.length, true, "FAIL TO ANSWER") := by
  cases contents with
  | nil => simp at hc
  | cons c0 rest =>
    have h0 : marker_in (llm (mk_prompt question c0)) = true := hall 0 (by simp)
    have hloop := retrieval_loop_all_marker llm question (c0 :: rest) retry hall
      retry 0 (llm (mk_prompt question c0)) (by omega) hr (by simp)
    simp only [generate_retrieval_based_reply, h0]
    obtain ⟨h1, h2⟩ := hloop
    norm_num at h1 h2
    simp [h1, h2]

/-- C7, amended, witness: with five retrieved chunks, retry bound 3 and
a model that always answers `UPDATE CONTEXT`, the handler fails after
exactly 3 attempts. -/
theorem claim7_retrieval_retry_bound_witness :
    generate_retrieval_based_reply (fun _ => "UPDATE CONTEXT") "q"
        ["c1", "c2", "c3", "c4", "c5"] 3
      = some (3, true, "FAIL TO ANSWER") := by
  have h := claim7_retrieval_retry_bound (fun _ => "UPDATE CONTEXT") "q"
    ["c1", "c2", "c3", "c4", "c5"] 3 (by simp) (by omega)
    (fun i hi => by
      show marker_in "UPDATE CONTEXT" = true
      decide)
  simpa using h

/-- C8, counterexample.  The claim says a sandbox idle beyond the
timeout is absent from the pool at the next access by its name and is
recreated fresh.  `get_or_create_sandbox` refreshes
`lasted_updated[name]` before running the timeout sweep, so the stale
sandbox `X` (idle 7200 seconds against a 3600-second timeout) survives
the sweep, stays in the pool and is returned with its old session
variables instead of a fresh one. -/
theorem claim8_stale_sandbox_reused_counterexample :
    7200 - 0 > 60 * 60
    ∧ (get_or_create_sandbox
        { sandboxes := [("X", { id := 0, sessionVariables := [("a", "1")] })]
          lastedUpdated := [("X", 0)], nextId := 1 } 7200 "X").1
      = { id := 0, sessionVariables := [("a", "1")] }
    ∧ lookupA (get_or_create_sandbox
        { sandboxes := [("X", { id := 0, sessionVariables := [("a", "1")] })]
          lastedUpdated := [("X", 0)], nextId := 1 } 7200 "X").2.sandboxes "X"
      = some { id := 0, sessionVariables := [("a", "1")] } := by
  refine ⟨?_, ?_, ?_⟩ <;> decide

end Byzer
